import Mathlib

/-!
Verification model of the net-traffic backend core: the threat scorer
(`services/threat_detection.py`), the flow engine bookkeeping
(`services/packet_capture.py`), the storage layer (`services/storage.py`)
and the device registry (`services/device_fingerprinting.py`).
Python dictionaries become Lean structures, optional values become `Option`,
Python float quantities become `ℚ`, and machine integers become `ℕ`/`ℤ`
(none of the modelled quantities overflow or go negative in the source).
-/

namespace NetTraffic

/-! ### Constants from `utils/constants.py` -/

def LARGE_UPLOAD_BYTES : ℕ := 10 * 1024 * 1024

def SUSPICIOUS_PORTS : List ℕ := [4444, 5555, 6666, 6667, 31337]

def HIGH_PACKET_COUNT : ℕ := 1000

def LOW_DATA_TRANSFER : ℕ := 1000

def HIGH_JITTER_MS : ℚ := 100

def HIGH_RTT_MS : ℚ := 1000

def THREAT_SCORE_CRITICAL : ℕ := 70

def THREAT_SCORE_HIGH : ℕ := 50

def THREAT_SCORE_MEDIUM : ℕ := 30

def THREAT_SCORE_LOW : ℕ := 15

def HIGH_RETRANSMISSION_RATE : ℚ := 10

def SUSPICIOUS_DOMAIN_PATTERNS : List String := [".tk", ".ml", ".ga", ".cf", ".xyz"]

def HIGH_RISK_COUNTRIES : List String := ["CN", "RU", "KP", "IR"]

def ALLOWED_APPLICATIONS : List String := ["HTTP", "HTTPS", "SSH", "DNS"]

def DNS_NOERROR : String := "NOERROR"

def THREAT_SCORE_EXFILTRATION : ℕ := 30

def THREAT_SCORE_SUSPICIOUS_PORT : ℕ := 50

def THREAT_SCORE_PORT_SCAN : ℕ := 20

def THREAT_SCORE_TCP_ANOMALY : ℕ := 25

def THREAT_SCORE_CONNECTION_RESET : ℕ := 15

def THREAT_SCORE_HIGH_RETRANSMISSION : ℕ := 20

def THREAT_SCORE_HIGH_JITTER : ℕ := 10

def THREAT_SCORE_HIGH_RTT : ℕ := 10

def THREAT_SCORE_SUSPICIOUS_DOMAIN : ℕ := 30

def THREAT_SCORE_HIGH_RISK_COUNTRY : ℕ := 25

def THREAT_SCORE_UNAUTHORIZED_APP : ℕ := 15

def THREAT_SCORE_DNS_ANOMALY : ℕ := 10

def DDoS_RETRANSMISSION_THRESHOLD : ℕ := 10

def DDoS_JITTER_THRESHOLD : ℚ := 100

/-! ### Python string primitives used by the scorer -/

/-- Python substring test `pat in s`, on the underlying character lists. -/
def strContains (s pat : String) : Bool :=
  s.data.tails.any (fun t => pat.data.isPrefixOf t)

/-- Python `s.lower()`, character by character (every string the scorer
lowercases here is ASCII, where the two agree). -/
def strLower (s : String) : String := ⟨s.data.map Char.toLower⟩

/-- Python suffix test `s.endswith(pat)`. -/
def strEndsWith (s pat : String) : Bool :=
  pat.data.reverse.isPrefixOf s.data.reverse

/-- Truthiness of an optional string, as Python evaluates `if s:`
(`None` and the empty string are falsy). -/
def truthyStr : Option String → Bool
  | some s => s ≠ ""
  | none => false

/-- Python `a or b` on optional strings: `b` when `a` is `None` or empty. -/
def pyOrStr (a b : Option String) : Option String :=
  if truthyStr a then a else b

/-! ### The flow dictionary handed to the scorer

`PacketCaptureService._process_packet` builds one mutable dict per active
flow; `_finalize_flow` passes it to `ThreatDetectionService.analyze_flow`.
Keys that may be absent from the dict are `Option` fields (absent = `none`);
keys the engine always sets are plain fields with the dict defaults that
`flow_data.get(key, default)` supplies. -/

structure FlowData where
  id : String := "unknown"
  source_ip : String := ""
  source_port : ℕ := 0
  dest_ip : String := ""
  dest_port : ℕ := 0
  protocol : String := ""
  bytes_in : ℕ := 0
  bytes_out : ℕ := 0
  packets_in : ℕ := 0
  packets_out : ℕ := 0
  first_seen : ℕ := 0
  last_seen : ℕ := 0
  duration : ℕ := 0
  device_id : String := "unknown"
  ttl : Option ℕ := none
  retransmissions : ℕ := 0
  domain : Option String := none
  sni : Option String := none
  application : Option String := none
  tcp_flags : List String := []
  connection_state : Option String := none
  http_method : Option String := none
  url : Option String := none
  user_agent : Option String := none
  dns_query_type : Option String := none
  dns_response_code : Option String := none
  rtt : Option ℚ := none
  jitter : Option ℚ := none
  country : Option String := none
deriving DecidableEq

/-! ### The twelve scoring conditions of `ThreatDetectionService.analyze_flow`

Each `cond*` is the boolean test of one `if` block of `analyze_flow`
(`services/threat_detection.py`, lines 56-134), in source order. -/

/-- Step 1: `bytes_out > LARGE_UPLOAD_BYTES`. -/
def condExfiltration (f : FlowData) : Bool :=
  decide (LARGE_UPLOAD_BYTES < f.bytes_out)

/-- Step 2: `dest_port in SUSPICIOUS_PORTS`. -/
def condSuspiciousPort (f : FlowData) : Bool :=
  decide (f.dest_port ∈ SUSPICIOUS_PORTS)

/-- Step 3: `total_packets > HIGH_PACKET_COUNT and bytes_in < LOW_DATA_TRANSFER`. -/
def condBurst (f : FlowData) : Bool :=
  decide (HIGH_PACKET_COUNT < f.packets_in + f.packets_out) &&
    decide (f.bytes_in < LOW_DATA_TRANSFER)

/-- Step 4: `"RST" in tcp_flags and "SYN" not in tcp_flags`. -/
def condRstNoSyn (f : FlowData) : Bool :=
  decide ("RST" ∈ f.tcp_flags) && decide ("SYN" ∉ f.tcp_flags)

/-- Step 4b: `flow_data.get("connection_state", "") == "RESET"`. -/
def condReset (f : FlowData) : Bool :=
  decide (f.connection_state.getD "" = "RESET")

/-- Step 5: `total_packets > 0` and `(retransmissions / total_packets) * 100`
exceeds `HIGH_RETRANSMISSION_RATE` (exact rational division models the
Python float division). -/
def condHighRetransmission (f : FlowData) : Bool :=
  decide (0 < f.packets_in + f.packets_out) &&
    decide (HIGH_RETRANSMISSION_RATE <
      (f.retransmissions : ℚ) / ((f.packets_in + f.packets_out : ℕ) : ℚ) * 100)

/-- Step 6a: `jitter and jitter > HIGH_JITTER_MS` (a zero jitter is falsy). -/
def condHighJitter (f : FlowData) : Bool :=
  match f.jitter with
  | some j => decide (j ≠ 0) && decide (HIGH_JITTER_MS < j)
  | none => false

/-- Step 6b: `rtt and rtt > HIGH_RTT_MS` (a zero rtt is falsy). -/
def condHighRtt (f : FlowData) : Bool :=
  match f.rtt with
  | some r => decide (r ≠ 0) && decide (HIGH_RTT_MS < r)
  | none => false

/-- Step 7: `sni = flow_data.get("sni") or flow_data.get("domain")`, then
`any(pattern in sni.lower() for pattern in SUSPICIOUS_DOMAIN_PATTERNS)`:
a substring test, not a suffix test. -/
def condSuspiciousDomain (f : FlowData) : Bool :=
  match pyOrStr f.sni f.domain with
  | some s => decide (s ≠ "") &&
      SUSPICIOUS_DOMAIN_PATTERNS.any (fun pat => strContains (strLower s) pat)
  | none => false

/-- Step 8: `country in HIGH_RISK_COUNTRIES` (`None` is in no list). -/
def condHighRiskCountry (f : FlowData) : Bool :=
  match f.country with
  | some c => decide (c ∈ HIGH_RISK_COUNTRIES)
  | none => false

/-- Step 9: `application and application not in ALLOWED_APPLICATIONS`. -/
def condUnauthorizedApp (f : FlowData) : Bool :=
  match f.application with
  | some a => decide (a ≠ "") && decide (a ∉ ALLOWED_APPLICATIONS)
  | none => false

/-- Step 10: `dns_response_code and dns_response_code not in [DNS_NOERROR, None]`. -/
def condDnsAnomaly (f : FlowData) : Bool :=
  match f.dns_response_code with
  | some c => decide (c ≠ "") && decide (c ≠ DNS_NOERROR)
  | none => false

/-- The running `(threat_score, threat_level)` pair after the twelve `if`
blocks of `analyze_flow` and before the final threshold block, threading the
two mutable locals exactly in source order (each block reads only the flow
dict, so its test is a `cond*` of the input). -/
def scoreAndPre (f : FlowData) : ℕ × String :=
  let s1 := if condExfiltration f then 0 + THREAT_SCORE_EXFILTRATION else 0
  let l1 := if condExfiltration f then "medium" else "safe"
  let s2 := if condSuspiciousPort f then s1 + THREAT_SCORE_SUSPICIOUS_PORT else s1
  let l2 := if condSuspiciousPort f then "high" else l1
  let s3 := if condBurst f then s2 + THREAT_SCORE_PORT_SCAN else s2
  let l3 := if condBurst f then "low" else l2
  let s4 := if condRstNoSyn f then s3 + THREAT_SCORE_TCP_ANOMALY else s3
  let l4 := if condRstNoSyn f then (if l3 = "safe" then "low" else l3) else l3
  let s5 := if condReset f then s4 + THREAT_SCORE_CONNECTION_RESET else s4
  let s6 := if condHighRetransmission f then
      s5 + THREAT_SCORE_HIGH_RETRANSMISSION else s5
  let l6 := if condHighRetransmission f then
      (if l4 = "safe" then "low" else l4) else l4
  let s7 := if condHighJitter f then s6 + THREAT_SCORE_HIGH_JITTER else s6
  let s8 := if condHighRtt f then s7 + THREAT_SCORE_HIGH_RTT else s7
  let s9 := if condSuspiciousDomain f then
      s8 + THREAT_SCORE_SUSPICIOUS_DOMAIN else s8
  let l9 := if condSuspiciousDomain f then
      (if l6 = "safe" ∨ l6 = "low" then "medium" else l6) else l6
  let s10 := if condHighRiskCountry f then
      s9 + THREAT_SCORE_HIGH_RISK_COUNTRY else s9
  let l10 := if condHighRiskCountry f then
      (if l9 = "safe" then "low" else l9) else l9
  let s11 := if condUnauthorizedApp f then
      s10 + THREAT_SCORE_UNAUTHORIZED_APP else s10
  let s12 := if condDnsAnomaly f then s11 + THREAT_SCORE_DNS_ANOMALY else s11
  (s12, l10)

/-- `analyze_flow`: the accumulated score together with the returned
threat level, after the final threshold block (lines 136-144). -/
def analyzeFlow (f : FlowData) : ℕ × String :=
  let sp := scoreAndPre f
  (sp.1,
    if THREAT_SCORE_CRITICAL ≤ sp.1 then "critical"
    else if THREAT_SCORE_HIGH ≤ sp.1 then "high"
    else if THREAT_SCORE_MEDIUM ≤ sp.1 then "medium"
    else if THREAT_SCORE_LOW ≤ sp.1 then "low"
    else sp.2)

/-- The threat level `analyze_flow` returns. -/
def analyzeLevel (f : FlowData) : String := (analyzeFlow f).2

/-- The additive score of `analyze_flow`, written as a flat sum of the
twelve independent increments. -/
def threatScore (f : FlowData) : ℕ :=
  (if condExfiltration f then THREAT_SCORE_EXFILTRATION else 0) +
  (if condSuspiciousPort f then THREAT_SCORE_SUSPICIOUS_PORT else 0) +
  (if condBurst f then THREAT_SCORE_PORT_SCAN else 0) +
  (if condRstNoSyn f then THREAT_SCORE_TCP_ANOMALY else 0) +
  (if condReset f then THREAT_SCORE_CONNECTION_RESET else 0) +
  (if condHighRetransmission f then THREAT_SCORE_HIGH_RETRANSMISSION else 0) +
  (if condHighJitter f then THREAT_SCORE_HIGH_JITTER else 0) +
  (if condHighRtt f then THREAT_SCORE_HIGH_RTT else 0) +
  (if condSuspiciousDomain f then THREAT_SCORE_SUSPICIOUS_DOMAIN else 0) +
  (if condHighRiskCountry f then THREAT_SCORE_HIGH_RISK_COUNTRY else 0) +
  (if condUnauthorizedApp f then THREAT_SCORE_UNAUTHORIZED_APP else 0) +
  (if condDnsAnomaly f then THREAT_SCORE_DNS_ANOMALY else 0)

/-- Classification of the score into a level by the final threshold block,
with its inclusive comparisons. -/
def bandOf (s : ℕ) : String :=
  if THREAT_SCORE_CRITICAL ≤ s then "critical"
  else if THREAT_SCORE_HIGH ≤ s then "high"
  else if THREAT_SCORE_MEDIUM ≤ s then "medium"
  else if THREAT_SCORE_LOW ≤ s then "low"
  else "safe"

/-- Splitting a score accumulation step into the running value plus its
independent increment. -/
theorem ite_add_split (c : Prop) [Decidable c] (x n : ℕ) :
    (if c then x + n else x) = x + (if c then n else 0) := by
  by_cases h : c <;> simp [h]

/-- The score component of `scoreAndPre` is the flat sum `threatScore`. -/
theorem scoreAndPre_fst (f : FlowData) : (scoreAndPre f).1 = threatScore f := by
  simp only [scoreAndPre, threatScore, ite_add_split]
  ring

/-- Every `if` block that writes an intermediate `threat_level` also adds at
least `THREAT_SCORE_LOW` to the score, so a total below the lowest threshold
means the intermediate level is still `"safe"`. -/
theorem scoreAndPre_snd_safe (f : FlowData)
    (h : threatScore f < THREAT_SCORE_LOW) : (scoreAndPre f).2 = "safe" := by
  have h1 : condExfiltration f = false := by
    cases hc : condExfiltration f
    · rfl
    · simp only [threatScore, hc, THREAT_SCORE_LOW, THREAT_SCORE_EXFILTRATION,
        if_true] at h
      omega
  have h2 : condSuspiciousPort f = false := by
    cases hc : condSuspiciousPort f
    · rfl
    · simp only [threatScore, hc, THREAT_SCORE_LOW, THREAT_SCORE_SUSPICIOUS_PORT,
        if_true] at h
      omega
  have h3 : condBurst f = false := by
    cases hc : condBurst f
    · rfl
    · simp only [threatScore, hc, THREAT_SCORE_LOW, THREAT_SCORE_PORT_SCAN,
        if_true] at h
      omega
  have h4 : condRstNoSyn f = false := by
    cases hc : condRstNoSyn f
    · rfl
    · simp only [threatScore, hc, THREAT_SCORE_LOW, THREAT_SCORE_TCP_ANOMALY,
        if_true] at h
      omega
  have h6 : condHighRetransmission f = false := by
    cases hc : condHighRetransmission f
    · rfl
    · simp only [threatScore, hc, THREAT_SCORE_LOW,
        THREAT_SCORE_HIGH_RETRANSMISSION, if_true] at h
      omega
  have h9 : condSuspiciousDomain f = false := by
    cases hc : condSuspiciousDomain f
    · rfl
    · simp only [threatScore, hc, THREAT_SCORE_LOW,
        THREAT_SCORE_SUSPICIOUS_DOMAIN, if_true] at h
      omega
  have h10 : condHighRiskCountry f = false := by
    cases hc : condHighRiskCountry f
    · rfl
    · simp only [threatScore, hc, THREAT_SCORE_LOW,
        THREAT_SCORE_HIGH_RISK_COUNTRY, if_true] at h
      omega
  simp [scoreAndPre, h1, h2, h3, h4, h6, h9, h10]

/-- The returned level is a function of the additive score alone. -/
theorem analyzeLevel_eq_bandOf (f : FlowData) :
    analyzeLevel f = bandOf (threatScore f) := by
  have hs := scoreAndPre_fst f
  simp only [analyzeLevel, analyzeFlow, bandOf, hs]
  split_ifs with h70 h50 h30 h15
  · rfl
  · rfl
  · rfl
  · rfl
  · exact scoreAndPre_snd_safe f (by omega)

/-- C8: for every flow the level `analyze_flow` returns is determined by the
additive integer score with inclusive thresholds — critical at score 70 and
above, high from 50 to 69, medium from 30 to 49, low from 15 to 29, safe
below 15 — so a score exactly at a threshold classifies at the higher band. -/
theorem threat_level_determined_by_score (f : FlowData) :
    analyzeLevel f = bandOf (threatScore f) ∧
    bandOf 70 = "critical" ∧ bandOf 69 = "high" ∧
    bandOf 50 = "high" ∧ bandOf 49 = "medium" ∧
    bandOf 30 = "medium" ∧ bandOf 29 = "low" ∧
    bandOf 15 = "low" ∧ bandOf 14 = "safe" :=
  ⟨analyzeLevel_eq_bandOf f, by decide, by decide, by decide, by decide,
    by decide, by decide, by decide, by decide⟩

/-! ### C5: the suspicious-domain increment -/

/-- `pat in s` on character lists is the mathematical substring relation. -/
theorem strContains_iff_infix (s pat : String) :
    strContains s pat = true ↔ pat.data <:+: s.data := by
  simp only [strContains, List.any_eq_true, List.mem_tails,
    List.isPrefixOf_iff_prefix, List.infix_iff_prefix_suffix]
  exact ⟨fun ⟨t, h1, h2⟩ => ⟨t, h2, h1⟩, fun ⟨t, h1, h2⟩ => ⟨t, h2, h1⟩⟩

/-- The flat score sum with the suspicious-domain increment removed. -/
def threatScoreOthers (f : FlowData) : ℕ :=
  (if condExfiltration f then THREAT_SCORE_EXFILTRATION else 0) +
  (if condSuspiciousPort f then THREAT_SCORE_SUSPICIOUS_PORT else 0) +
  (if condBurst f then THREAT_SCORE_PORT_SCAN else 0) +
  (if condRstNoSyn f then THREAT_SCORE_TCP_ANOMALY else 0) +
  (if condReset f then THREAT_SCORE_CONNECTION_RESET else 0) +
  (if condHighRetransmission f then THREAT_SCORE_HIGH_RETRANSMISSION else 0) +
  (if condHighJitter f then THREAT_SCORE_HIGH_JITTER else 0) +
  (if condHighRtt f then THREAT_SCORE_HIGH_RTT else 0) +
  (if condHighRiskCountry f then THREAT_SCORE_HIGH_RISK_COUNTRY else 0) +
  (if condUnauthorizedApp f then THREAT_SCORE_UNAUTHORIZED_APP else 0) +
  (if condDnsAnomaly f then THREAT_SCORE_DNS_ANOMALY else 0)

/-- C5 counterexample: a flow whose SNI ends in `.com` but contains `.tk`
in the middle still collects the 30-point suspicious-domain increment,
because the source tests `pattern in sni.lower()` (substring), not a
suffix; so the claim as stated is false. -/
theorem suspicious_domain_not_suffix_counterexample :
    threatScore { sni := some "evil.tk.example.com" } =
      THREAT_SCORE_SUSPICIOUS_DOMAIN ∧
    SUSPICIOUS_DOMAIN_PATTERNS.any
      (fun pat => strEndsWith "evil.tk.example.com" pat) = false :=
  ⟨by decide, by decide⟩

/-- C5 amended: the scorer adds 30 exactly when the flow's SNI (or, if the
SNI is absent or empty, its domain) CONTAINS one of `.tk .ml .ga .cf .xyz`
as a substring of its lowercased form — not only when it ends in one; the
increment is independent of the other eleven score contributions. -/
theorem suspicious_domain_substring_scoring (f : FlowData) :
    threatScore f = threatScoreOthers f +
      (if condSuspiciousDomain f then THREAT_SCORE_SUSPICIOUS_DOMAIN else 0) ∧
    (condSuspiciousDomain f = true ↔ ∃ s, pyOrStr f.sni f.domain = some s ∧
      s ≠ "" ∧ ∃ pat ∈ SUSPICIOUS_DOMAIN_PATTERNS,
        pat.data <:+: (strLower s).data) := by
  constructor
  · simp only [threatScore, threatScoreOthers]
    ring
  · cases h : pyOrStr f.sni f.domain with
    | none => simp [condSuspiciousDomain, h]
    | some s =>
        simp [condSuspiciousDomain, h, List.any_eq_true, strContains_iff_infix]

/-! ### C7: packet sampling (`packet_handler`, `services/packet_capture.py`
lines 242-245, and `start`, line 170)

The handler keeps a packet when, after incrementing `_sampling_counter`,
`counter % int(1.0 / rate) == 0`; the whole block is skipped when the rate
is not below 1. Rates are exact rationals here; `int()` on a positive float
truncates, i.e. takes the floor. -/

/-- `start` clamps the configured sampling rate: `max(0.01, min(1.0, rate))`. -/
def clampRate (s : ℚ) : ℚ := max (1 / 100) (min 1 s)

/-- `int(1.0 / rate)`. -/
def samplingModulus (rate : ℚ) : ℕ := ⌊(1 : ℚ) / rate⌋₊

/-- One run of the sampling block for one packet: the new counter and
whether the packet is kept. -/
def samplerStep (rate : ℚ) (counter : ℕ) : ℕ × Bool :=
  if rate < 1 then
    (counter + 1, decide ((counter + 1) % samplingModulus rate = 0))
  else (counter, true)

/-- Feed packets numbered `i, i+1, ...` (`n` of them) through the sampler
starting from counter value `c`; the list of kept packet numbers. -/
def runSamplerAux (rate : ℚ) : ℕ → ℕ → ℕ → List ℕ
  | _, _, 0 => []
  | c, i, n + 1 =>
      let st := samplerStep rate c
      let rest := runSamplerAux rate st.1 (i + 1) n
      if st.2 then i :: rest else rest

/-- The packet numbers (1-based) kept out of the first `n` packets. -/
def keptIndices (rate : ℚ) (n : ℕ) : List ℕ := runSamplerAux rate 0 1 n

/-- Membership in the sampler output, for a sub-unit rate: packet `i + j`
is kept iff the counter value `c + 1 + j` it sees is divisible by the
modulus. -/
theorem mem_runSamplerAux (rate : ℚ) (hr : rate < 1) :
    ∀ (n c i k : ℕ), k ∈ runSamplerAux rate c i n ↔
      ∃ j, j < n ∧ k = i + j ∧ (c + 1 + j) % samplingModulus rate = 0
  | 0, c, i, k => by simp [runSamplerAux]
  | n + 1, c, i, k => by
      have IH := mem_runSamplerAux rate hr n (c + 1) (i + 1) k
      by_cases hk : (c + 1) % samplingModulus rate = 0
      · rw [show runSamplerAux rate c i (n + 1) =
            i :: runSamplerAux rate (c + 1) (i + 1) n by
          simp [runSamplerAux, samplerStep, if_pos hr, hk]]
        rw [List.mem_cons, IH]
        constructor
        · rintro (hki | ⟨j, hj, hkij, hmod⟩)
          · exact ⟨0, by omega, by omega, by simpa using hk⟩
          · refine ⟨j + 1, by omega, by omega, ?_⟩
            have harith : c + 1 + (j + 1) = c + 1 + 1 + j := by omega
            rw [harith]
            exact hmod
        · rintro ⟨j, hj, hkij, hmod⟩
          cases j with
          | zero => exact Or.inl (by omega)
          | succ j =>
              refine Or.inr ⟨j, by omega, by omega, ?_⟩
              have harith : c + 1 + 1 + j = c + 1 + (j + 1) := by omega
              rw [harith]
              exact hmod
      · rw [show runSamplerAux rate c i (n + 1) =
            runSamplerAux rate (c + 1) (i + 1) n by
          simp [runSamplerAux, samplerStep, if_pos hr, hk]]
        rw [IH]
        constructor
        · rintro ⟨j, hj, hkij, hmod⟩
          refine ⟨j + 1, by omega, by omega, ?_⟩
          have harith : c + 1 + (j + 1) = c + 1 + 1 + j := by omega
          rw [harith]
          exact hmod
        · rintro ⟨j, hj, hkij, hmod⟩
          cases j with
          | zero => exact absurd (by simpa using hmod) hk
          | succ j =>
              refine ⟨j, by omega, by omega, ?_⟩
              have harith : c + 1 + 1 + j = c + 1 + (j + 1) := by omega
              rw [harith]
              exact hmod

/-- With the sampling branch disabled (rate not below 1) every packet is
kept and the counter never moves. -/
theorem runSamplerAux_one :
    ∀ (n c i : ℕ), runSamplerAux 1 c i n = (List.range n).map (fun j => i + j)
  | 0, _, _ => by simp [runSamplerAux]
  | n + 1, c, i => by
      have IH := runSamplerAux_one n c (i + 1)
      rw [show runSamplerAux 1 c i (n + 1) = i :: runSamplerAux 1 c (i + 1) n by
        simp [runSamplerAux, samplerStep]]
      rw [IH, List.range_succ_eq_map, List.map_cons, List.map_map]
      have hfun : ((fun j => i + j) ∘ Nat.succ) = (fun j => i + 1 + j) := by
        funext j
        simp [Function.comp, Nat.succ_eq_add_one]
        omega
      rw [hfun]
      simp

/-- C7 counterexample: at sampling rate s = 2/5 (a legal rate, fixed by the
clamp), the code keeps packets 2, 4, 6 of the first six — every
`int(1/s) = 2`-nd packet — whereas the claim prescribes every
`ceil(1/s) = 3`-rd packet, i.e. packets 3 and 6. -/
theorem sampler_not_ceil_counterexample :
    clampRate (2 / 5) = 2 / 5 ∧
    keptIndices (2 / 5) 6 = [2, 4, 6] ∧
    ⌈(1 : ℚ) / (2 / 5 : ℚ)⌉₊ = 3 ∧
    ((List.range 6).map (fun j => j + 1)).filter
      (fun k => decide (k % 3 = 0)) = [3, 6] ∧
    ([2, 4, 6] : List ℕ) ≠ [3, 6] := by
  have hN : samplingModulus (2 / 5) = 2 := by
    rw [samplingModulus, show (1 : ℚ) / (2 / 5) = 5 / 2 by norm_num,
      Nat.floor_eq_iff (by norm_num)]
    norm_num
  refine ⟨by rw [clampRate]; norm_num, ?_, ?_, by decide, by decide⟩
  · norm_num [keptIndices, runSamplerAux, samplerStep, hN]
  · rw [show (1 : ℚ) / (2 / 5) = 5 / 2 by norm_num,
      Nat.ceil_eq_iff (by norm_num)]
    norm_num

/-- C7 amended: for a sampling rate `s < 1` the sampler deterministically
keeps exactly every `int(1/s)`-th packet — the floor of `1/s`, not the
ceiling — and for `s = 1` (or any rate not below 1) it keeps every packet. -/
theorem sampler_keeps_every_floor (s : ℚ) (n k : ℕ) (h0 : 0 < s)
    (hr : s < 1) :
    (k ∈ keptIndices s n ↔ 1 ≤ k ∧ k ≤ n ∧ samplingModulus s ∣ k) ∧
    keptIndices 1 n = (List.range n).map (fun j => 1 + j) := by
  have hNpos : 0 < samplingModulus s := by
    rw [samplingModulus]
    have h1 : (1 : ℚ) ≤ 1 / s := by
      rw [le_div_iff₀ h0]
      linarith
    have h2 : (1 : ℕ) ≤ ⌊(1 : ℚ) / s⌋₊ := Nat.le_floor (by exact_mod_cast h1)
    omega
  constructor
  · rw [keptIndices, mem_runSamplerAux s hr]
    constructor
    · rintro ⟨j, hj, hk, hmod⟩
      have hdvd : samplingModulus s ∣ k := by
        rw [Nat.dvd_iff_mod_eq_zero]
        have : k = 0 + 1 + j := by omega
        rw [this]
        exact hmod
      exact ⟨by omega, by omega, hdvd⟩
    · rintro ⟨hk1, hkn, hdvd⟩
      refine ⟨k - 1, by omega, by omega, ?_⟩
      have : 0 + 1 + (k - 1) = k := by omega
      rw [this]
      exact Nat.dvd_iff_mod_eq_zero.mp hdvd
  · rw [keptIndices, runSamplerAux_one]

/-- Witness for the amended sampling theorem at the concrete rate 2/5. -/
theorem sampler_keeps_every_floor_witness :
    (4 ∈ keptIndices (2 / 5) 6 ↔
      1 ≤ 4 ∧ 4 ≤ 6 ∧ samplingModulus (2 / 5) ∣ 4) ∧
    keptIndices 1 6 = (List.range 6).map (fun j => 1 + j) :=
  sampler_keeps_every_floor (2 / 5) 6 4 (by norm_num) (by norm_num)

/-! ### The storage records (`models/types.py`) and their table rows
(`services/storage.py`)

The pydantic models become structures; a stored table row keeps each column
exactly as the `INSERT` writes it: lists become comma-joined text
(`",".join(...)` or `NULL`), booleans become `1`/`0`, everything else is
passed through. The two free-text threat fields `description` and
`recommendation` (deterministic templates, stored and read back verbatim)
are elided. The behavioral map travels through `json.dumps`/`json.loads`,
which round-trips it; it is stored structurally here. -/

structure Behavioral where
  peakHours : List ℕ := []
  commonPorts : List ℕ := []
  commonDomains : List String := []
  anomalyCount : ℕ := 0
deriving DecidableEq

/-- `Device` of `models/types.py`. -/
structure DeviceRec where
  id : String
  name : String
  ip : String
  mac : String
  type : String
  vendor : String
  os : Option String := none
  firstSeen : ℕ
  lastSeen : ℕ
  bytesTotal : ℕ := 0
  connectionsCount : ℕ := 0
  threatScore : ℚ := 0
  behavioral : Behavioral := {}
  notes : Option String := none
  ipv6Support : Option Bool := none
  avgRtt : Option ℚ := none
  connectionQuality : Option String := none
  applications : Option (List String) := none
deriving DecidableEq

/-- `NetworkFlow` of `models/types.py`. -/
structure NetworkFlowRec where
  id : String
  timestamp : ℕ
  sourceIp : String
  sourcePort : ℕ
  destIp : String
  destPort : ℕ
  protocol : String
  bytesIn : ℕ
  bytesOut : ℕ
  packetsIn : ℕ
  packetsOut : ℕ
  duration : ℕ
  status : String
  country : Option String := none
  city : Option String := none
  asn : Option ℤ := none
  domain : Option String := none
  sni : Option String := none
  threatLevel : String
  deviceId : String
  tcpFlags : Option (List String) := none
  ttl : Option ℕ := none
  connectionState : Option String := none
  rtt : Option ℤ := none
  retransmissions : Option ℕ := none
  jitter : Option ℚ := none
  application : Option String := none
  userAgent : Option String := none
  httpMethod : Option String := none
  url : Option String := none
  dnsQueryType : Option String := none
  dnsResponseCode : Option String := none
deriving DecidableEq

/-- `Threat` of `models/types.py` (free-text fields elided, see above). -/
structure ThreatRec where
  id : String
  timestamp : ℕ
  type : String
  severity : String
  deviceId : String
  flowId : String
  dismissed : Bool := false
deriving DecidableEq

/-- Split a character list at a separator (Python `s.split(sep)` for a
one-character separator); the second argument is the reversed current
segment. -/
def splitOnCh (sep : Char) : List Char → List Char → List (List Char)
  | [], acc => [acc.reverse]
  | c :: rest, acc =>
      if c = sep then acc.reverse :: splitOnCh sep rest []
      else splitOnCh sep rest (c :: acc)

/-- Python `s.strip()` (whitespace from both ends), on character lists. -/
def trimChars (l : List Char) : List Char :=
  ((l.dropWhile Char.isWhitespace).reverse.dropWhile Char.isWhitespace).reverse

/-- Python `",".join(parts)`. -/
def joinComma (parts : List String) : String :=
  ⟨List.intercalate [','] (parts.map String.data)⟩

/-- `[a.strip() for a in s.split(",") if a.strip()]` of the row decoders. -/
def parseCsvList (s : String) : List String :=
  ((splitOnCh ',' s.data []).map (fun cs => (⟨trimChars cs⟩ : String))).filter
    (fun a => a ≠ "")

/-- `",".join(xs) if xs else None`: the encoding `upsert_device` and
`add_flow` apply to an optional list column (`None` and `[]` both store
`NULL`). -/
def encodeStrList : Option (List String) → Option String
  | some l => if l = [] then none else some (joinComma l)
  | none => none

/-- Row of the `flows` table as `add_flow` writes it. -/
structure FlowRow where
  id : String
  timestamp : ℕ
  source_ip : String
  source_port : ℕ
  dest_ip : String
  dest_port : ℕ
  protocol : String
  bytes_in : ℕ
  bytes_out : ℕ
  packets_in : ℕ
  packets_out : ℕ
  duration : ℕ
  status : String
  country : Option String
  city : Option String
  asn : Option ℤ
  domain : Option String
  sni : Option String
  threat_level : String
  device_id : String
  tcp_flags : Option String
  ttl : Option ℕ
  connection_state : Option String
  rtt : Option ℤ
  retransmissions : Option ℕ
  jitter : Option ℚ
  application : Option String
  user_agent : Option String
  http_method : Option String
  url : Option String
  dns_query_type : Option String
  dns_response_code : Option String
deriving DecidableEq

/-- The tuple `add_flow` binds into its `INSERT OR REPLACE`. -/
def flowToRow (fl : NetworkFlowRec) : FlowRow :=
  { id := fl.id, timestamp := fl.timestamp, source_ip := fl.sourceIp,
    source_port := fl.sourcePort, dest_ip := fl.destIp,
    dest_port := fl.destPort, protocol := fl.protocol,
    bytes_in := fl.bytesIn, bytes_out := fl.bytesOut,
    packets_in := fl.packetsIn, packets_out := fl.packetsOut,
    duration := fl.duration, status := fl.status, country := fl.country,
    city := fl.city, asn := fl.asn, domain := fl.domain, sni := fl.sni,
    threat_level := fl.threatLevel, device_id := fl.deviceId,
    tcp_flags := encodeStrList fl.tcpFlags, ttl := fl.ttl,
    connection_state := fl.connectionState, rtt := fl.rtt,
    retransmissions := fl.retransmissions, jitter := fl.jitter,
    application := fl.application, user_agent := fl.userAgent,
    http_method := fl.httpMethod, url := fl.url,
    dns_query_type := fl.dnsQueryType,
    dns_response_code := fl.dnsResponseCode }

/-- `add_flow`: `INSERT OR REPLACE INTO flows` — any row with the same
primary key is replaced, the new row is appended. -/
def addFlow (db : List FlowRow) (fl : NetworkFlowRec) : List FlowRow :=
  db.filter (fun r => r.id ≠ fl.id) ++ [flowToRow fl]

/-- Row of the `threats` table as `add_threat` writes it
(`dismissed` stored as `1 if threat.dismissed else 0`). -/
structure ThreatRow where
  id : String
  timestamp : ℕ
  type : String
  severity : String
  device_id : String
  flow_id : String
  dismissed : ℕ
deriving DecidableEq

/-- The tuple `add_threat` binds into its `INSERT OR REPLACE`. -/
def threatToRow (t : ThreatRec) : ThreatRow :=
  { id := t.id, timestamp := t.timestamp, type := t.type,
    severity := t.severity, device_id := t.deviceId, flow_id := t.flowId,
    dismissed := if t.dismissed then 1 else 0 }

/-- `add_threat`: `INSERT OR REPLACE INTO threats`. -/
def addThreat (db : List ThreatRow) (t : ThreatRec) : List ThreatRow :=
  db.filter (fun r => r.id ≠ t.id) ++ [threatToRow t]

/-! ### C1: the batch writer and `add_flows_batch` -/

/-- The methods the `class StorageService` block of `services/storage.py`
defines, in source order. `add_flows_batch` is not among them. -/
def storageServiceMethods : List String :=
  ["__init__", "initialize", "_ensure_connection", "_connect_with_retry",
   "_execute_with_retry", "_create_tables", "_optimize_sqlite",
   "cleanup_old_data", "get_database_stats", "close", "get_devices",
   "get_device", "get_device_by_mac", "upsert_device", "count_devices",
   "add_flow", "get_flows", "search_flows", "search_devices", "get_flow",
   "count_flows", "add_threat", "get_threats", "search_threats",
   "get_threat", "upsert_threat", "dismiss_threat", "_row_to_device",
   "_row_to_flow", "_row_to_threat"]

/-- `PacketCaptureService._batch_size`. -/
def BATCH_SIZE : ℕ := 50

/-- `PacketCaptureService._flush_write_queue`: the first `_batch_size`
queued flows are popped, then `self.storage.add_flows_batch(flows_to_write)`
is awaited. `StorageService` defines no `add_flows_batch`, so the attribute
lookup raises `AttributeError`; the surrounding `except Exception` logs it
and returns. Net effect: the popped flows are discarded and the flows table
is untouched. -/
def flushWriteQueue (flowsDb : List FlowRow) (queue : List NetworkFlowRec) :
    List FlowRow × List NetworkFlowRec :=
  (flowsDb, queue.drop BATCH_SIZE)

/-- A concrete finalized flow. -/
def sampleFlow : NetworkFlowRec :=
  { id := "flow-1", timestamp := 1700000000000, sourceIp := "10.0.0.5",
    sourcePort := 1234, destIp := "203.0.113.9", destPort := 443,
    protocol := "TCP", bytesIn := 100, bytesOut := 200, packetsIn := 1,
    packetsOut := 2, duration := 0, status := "closed",
    threatLevel := "safe", deviceId := "dev-1" }

/-- C1: the claim is a bug in the code. The Store exposes no
`add_flows_batch` operation at all; the batch writer's call to it raises
`AttributeError` (swallowed), so flushing a queue holding one flow leaves
the flows table empty while `for f in L: add_flow(f)` would have persisted
the flow. -/
theorem add_flows_batch_missing :
    "add_flows_batch" ∉ storageServiceMethods ∧
    flushWriteQueue [] [sampleFlow] = ([], []) ∧
    [sampleFlow].foldl addFlow [] = [flowToRow sampleFlow] ∧
    ([flowToRow sampleFlow] : List FlowRow) ≠ ([] : List FlowRow) := by
  refine ⟨by decide, rfl, rfl, by simp⟩

/-! ### C2: finalization, threat persistence and flow persistence

`_finalize_flow` first lets the scorer run (which persists a Threat row at
once through `add_threat` when the level is not safe), then appends the
closed flow to the write queue, flushing when the queue reaches
`_batch_size`; `stop()` flushes once more. Because the flush calls the
missing `add_flows_batch` (see C1), a flush discards its batch. -/

/-- `ThreatDetectionService._classify_threat`. -/
def classifyThreat (f : FlowData) : String :=
  if decide (LARGE_UPLOAD_BYTES < f.bytes_out) then "exfiltration"
  else if decide ("RST" ∈ f.tcp_flags) && decide ("SYN" ∉ f.tcp_flags) then
    "scan"
  else if decide (HIGH_PACKET_COUNT < f.packets_in + f.packets_out) &&
      decide (f.bytes_in < LOW_DATA_TRANSFER) then "scan"
  else if decide (DDoS_RETRANSMISSION_THRESHOLD < f.retransmissions) &&
      decide (DDoS_JITTER_THRESHOLD < f.jitter.getD 0) then "botnet"
  else if condSuspiciousDomain f then "phishing"
  else "anomaly"

/-- The `severity_map.get(threat_level, "low")` table of `_create_threat`. -/
def severityMap (level : String) : String :=
  if level = "safe" then "low"
  else if level = "low" then "low"
  else if level = "medium" then "medium"
  else if level = "high" then "high"
  else if level = "critical" then "critical"
  else "low"

/-- The Threat record `_create_threat` builds and persists; `tid` and `ts`
stand for the fresh `uuid4` and the wall-clock timestamp. -/
def mkThreatRec (f : FlowData) (level : String) (tid : String) (ts : ℕ) :
    ThreatRec :=
  { id := tid, timestamp := ts, type := classifyThreat f,
    severity := severityMap level, deviceId := f.device_id,
    flowId := f.id, dismissed := false }

/-- Result of `GeolocationService.get_location` for one IP. -/
structure GeoInfo where
  country : Option String := none
  city : Option String := none
  asn : Option ℤ := none
deriving DecidableEq

/-- The `NetworkFlow` object `_finalize_flow` builds from the flow dict:
status closed, the scorer's level, `domain` backed by the DNS cache and
normalized to `None` when falsy, geolocation of the destination IP,
`retransmissions` nulled when zero. The engine keeps a window of RTT
samples and stores their truncated mean; the `rtt` field here carries the
windowed value, floored. -/
def mkFlowRec (dnsCache : String → Option String) (geo : String → GeoInfo)
    (f : FlowData) (level : String) : NetworkFlowRec :=
  let dm := pyOrStr f.domain (dnsCache f.dest_ip)
  { id := f.id, timestamp := f.first_seen, sourceIp := f.source_ip,
    sourcePort := f.source_port, destIp := f.dest_ip,
    destPort := f.dest_port, protocol := f.protocol,
    bytesIn := f.bytes_in, bytesOut := f.bytes_out,
    packetsIn := f.packets_in, packetsOut := f.packets_out,
    duration := f.duration, status := "closed", threatLevel := level,
    deviceId := f.device_id,
    domain := if truthyStr dm then dm else none, sni := f.sni,
    country := (geo f.dest_ip).country, city := (geo f.dest_ip).city,
    asn := (geo f.dest_ip).asn,
    tcpFlags := if f.tcp_flags = [] then none else some f.tcp_flags,
    ttl := f.ttl, connectionState := f.connection_state,
    rtt := f.rtt.map (fun q => ⌊q⌋),
    retransmissions :=
      if 0 < f.retransmissions then some f.retransmissions else none,
    jitter := f.jitter, application := f.application,
    userAgent := f.user_agent, httpMethod := f.http_method, url := f.url,
    dnsQueryType := f.dns_query_type,
    dnsResponseCode := f.dns_response_code }

/-- Durable and in-flight state relevant to finalization: the two tables
plus the engine's write queue. -/
structure EngineState where
  threatsDb : List ThreatRow
  flowsDb : List FlowRow
  writeQueue : List NetworkFlowRec
deriving DecidableEq

/-- One `_finalize_flow` call: score (persisting a threat when the level is
not safe), queue the closed flow, flush when the queue reaches
`_batch_size` (the flush drops its batch, see `flushWriteQueue`). -/
def finalizeFlow (dnsCache : String → Option String) (geo : String → GeoInfo)
    (tid : String) (ts : ℕ) (st : EngineState) (f : FlowData) : EngineState :=
  let level := analyzeLevel f
  let threats1 :=
    if level ≠ "safe" then addThreat st.threatsDb (mkThreatRec f level tid ts)
    else st.threatsDb
  let queue1 := st.writeQueue ++ [mkFlowRec dnsCache geo f level]
  if BATCH_SIZE ≤ queue1.length then
    let fq := flushWriteQueue st.flowsDb queue1
    { threatsDb := threats1, flowsDb := fq.1, writeQueue := fq.2 }
  else
    { threatsDb := threats1, flowsDb := st.flowsDb, writeQueue := queue1 }

/-- `stop()` flushes the write queue once before cancelling the workers. -/
def stopEngine (st : EngineState) : EngineState :=
  let fq := flushWriteQueue st.flowsDb st.writeQueue
  { st with flowsDb := fq.1, writeQueue := fq.2 }

/-- A flow to a suspicious port: score 50, level high, threat persisted. -/
def scanFlow : FlowData where
  id := "flow-1"
  device_id := "dev-1"
  source_ip := "10.0.0.5"
  dest_ip := "10.0.0.1"
  dest_port := 4444
  protocol := "TCP"
  bytes_out := 60
  first_seen := 1700000000000
  last_seen := 1700000000000

/-- C2: the claim is a bug in the code. Finalizing a flow to port 4444
persists a threat whose severity `"high"` is the scorer's level and whose
`flow_id` is the flow's id — but after the engine drains, no flow row with
that id (or any flow row at all) is persisted, because the batch writer's
`add_flows_batch` call fails (C1) and its batch is discarded. -/
theorem threat_persisted_without_flow :
    analyzeLevel scanFlow = "high" ∧
    (stopEngine (finalizeFlow (fun _ => none) (fun _ => {}) "threat-1"
        1700000000001 ⟨[], [], []⟩ scanFlow)).threatsDb.map
      (fun t => (t.flow_id, t.severity)) = [("flow-1", "high")] ∧
    (stopEngine (finalizeFlow (fun _ => none) (fun _ => {}) "threat-1"
        1700000000001 ⟨[], [], []⟩ scanFlow)).flowsDb = [] ∧
    (stopEngine (finalizeFlow (fun _ => none) (fun _ => {}) "threat-1"
        1700000000001 ⟨[], [], []⟩ scanFlow)).writeQueue = [] := by
  refine ⟨by decide, by decide, by decide, by decide⟩

/-! ### C3 and C10: the devices table and the device registry -/

/-- Row of the `devices` table as `upsert_device` writes it
(`ipv6_support` stored as `1 if device.ipv6Support else 0`, applications
comma-joined or `NULL`, behavioral through `json.dumps`). -/
structure DeviceRow where
  id : String
  name : String
  ip : String
  mac : String
  type : String
  vendor : String
  os : Option String
  first_seen : ℕ
  last_seen : ℕ
  bytes_total : ℕ
  connections_count : ℕ
  threat_score : ℚ
  behavioral : Behavioral
  notes : Option String
  ipv6_support : ℕ
  avg_rtt : Option ℚ
  connection_quality : Option String
  applications : Option String
deriving DecidableEq

/-- The tuple `upsert_device` binds into its `INSERT OR REPLACE`. -/
def deviceToRow (d : DeviceRec) : DeviceRow :=
  { id := d.id, name := d.name, ip := d.ip, mac := d.mac, type := d.type,
    vendor := d.vendor, os := d.os, first_seen := d.firstSeen,
    last_seen := d.lastSeen, bytes_total := d.bytesTotal,
    connections_count := d.connectionsCount, threat_score := d.threatScore,
    behavioral := d.behavioral, notes := d.notes,
    ipv6_support := match d.ipv6Support with | some true => 1 | _ => 0,
    avg_rtt := d.avgRtt, connection_quality := d.connectionQuality,
    applications := encodeStrList d.applications }

/-- `upsert_device`: `INSERT OR REPLACE INTO devices` with `id` the primary
key and `UNIQUE(mac)` — SQLite deletes every row conflicting on either
constraint, then inserts the new row. -/
def upsertDevice (db : List DeviceRow) (d : DeviceRec) : List DeviceRow :=
  let row := deviceToRow d
  db.filter (fun r => decide (r.id ≠ row.id) && decide (r.mac ≠ row.mac)) ++
    [row]

/-- The error `_row_to_device` raises: line 693 evaluates
`row.get("notes")`, and `sqlite3.Row` (the connection's row factory) has no
method `get` — only mapping access — so every call fails before a `Device`
is constructed. -/
def pyRowGetError : String :=
  "AttributeError: sqlite3.Row object has no attribute get"

/-- `_row_to_device`, which raises on every row (see `pyRowGetError`). -/
def rowToDevice (_ : DeviceRow) : Except String DeviceRec :=
  Except.error pyRowGetError

/-- `get_device`: fetch by primary key, convert through `_row_to_device`. -/
def getDevice (db : List DeviceRow) (did : String) :
    Except String (Option DeviceRec) :=
  match db.find? (fun r => decide (r.id = did)) with
  | some row => (rowToDevice row).map some
  | none => Except.ok none

/-- A concrete device record. -/
def sampleDevice : DeviceRec where
  id := "dev-1"
  name := "pi"
  ip := "192.168.1.7"
  mac := "B8:27:EB:01:02:03"
  type := "server"
  vendor := "Raspberry Pi"
  firstSeen := 1700000000000
  lastSeen := 1700000000000

/-- C3: the claim is a bug in the code. Inserting a Device and reading it
back by id does not return the record: `get_device` raises
`AttributeError` out of `_row_to_device` (whose own comment says it means
to handle a missing `notes` column) for every existing row. -/
theorem device_insert_then_get_raises :
    getDevice (upsertDevice [] sampleDevice) "dev-1" =
      Except.error pyRowGetError ∧
    ∀ d : DeviceRec,
      (Except.error pyRowGetError : Except String (Option DeviceRec)) ≠
        Except.ok (some d) :=
  ⟨rfl, fun _ h => Except.noConfusion h⟩

/-- The OUI table of `services/device_fingerprinting.py`, in source order
(Python dicts iterate in insertion order). -/
def VENDOR_DB : List (String × String) :=
  [("00:50:56", "VMware"), ("00:0C:29", "VMware"), ("00:05:69", "VMware"),
   ("08:00:27", "VirtualBox"), ("52:54:00", "QEMU"),
   ("B8:27:EB", "Raspberry Pi"), ("DC:A6:32", "Raspberry Pi"),
   ("E4:5F:01", "Raspberry Pi"), ("28:CD:C1", "Raspberry Pi"),
   ("D8:3A:DD", "Raspberry Pi")]

/-- The Raspberry Pi OUIs `_detect_device_type` greps for. -/
def PI_OUI_PREFIXES : List String := ["B8:27:EB", "DC:A6:32", "E4:5F:01"]

/-- Python `s.upper()`, character by character (ASCII inputs here). -/
def strUpper (s : String) : String := ⟨s.data.map Char.toUpper⟩

/-- `mac.upper()[:8]`. -/
def macPrefix8 (m : String) : String := ⟨(strUpper m).data.take 8⟩

/-- `_detect_device_type`. -/
def detectDeviceType (ip : String) (mac : Option String) : String :=
  if strEndsWith ip ".1" then "server"
  else
    match mac with
    | some m =>
        if decide (m ≠ "") &&
            PI_OUI_PREFIXES.any (fun v => strContains (macPrefix8 m) v) then
          "server"
        else "unknown"
    | none => "unknown"

/-- `_detect_vendor`: first OUI whose 3-byte prefix starts the uppercased
MAC, else Unknown. -/
def detectVendor (m : String) : String :=
  if m = "" then "Unknown"
  else
    match VENDOR_DB.find? (fun p => p.1.data.isPrefixOf (macPrefix8 m).data) with
    | some p => p.2
    | none => "Unknown"

/-- `hostname.split(".")[0]`. -/
def firstLabel (h : String) : String :=
  ⟨h.data.takeWhile (fun c => c ≠ '.')⟩

/-- Python `str.title()` restricted to the single-word device types used
here. -/
def pyTitle (s : String) : String :=
  match s.data with
  | [] => ""
  | c :: rest => ⟨Char.toUpper c :: rest.map Char.toLower⟩

/-- `ip.split(".")[-1]`. -/
def lastOctet (ip : String) : String :=
  ⟨(splitOnCh '.' ip.data []).getLastD []⟩

/-- `_generate_device_name`; `resolver` stands for
`socket.gethostbyaddr(ip)[0]` with `none` for a raised lookup error. -/
def generateDeviceName (resolver : String → Option String)
    (ip vendor dtype : String) : String :=
  let fallback :=
    if vendor ≠ "Unknown" then vendor ++ " " ++ pyTitle dtype
    else "Device " ++ lastOctet ip
  match resolver ip with
  | some h => if decide (h ≠ "") && decide (h ≠ ip) then firstLabel h
      else fallback
  | none => fallback

/-- The new `Device` that `get_or_create_device` builds on a miss: MAC
defaulted to the sentinel `"unknown"` when absent or empty
(`mac=mac or "unknown"`), fresh uuid `fid`, wall-clock `now`. -/
def mkNewDevice (resolver : String → Option String) (ip : String)
    (mac : Option String) (fid : String) (now : ℕ) : DeviceRec :=
  let dtype := detectDeviceType ip mac
  let vendor := match mac with
    | some m => if m ≠ "" then detectVendor m else "Unknown"
    | none => "Unknown"
  { id := fid, name := generateDeviceName resolver ip vendor dtype, ip := ip,
    mac := match mac with
      | some m => if m ≠ "" then m else "unknown"
      | none => "unknown",
    type := dtype, vendor := vendor, firstSeen := now, lastSeen := now,
    bytesTotal := 0, connectionsCount := 0, threatScore := 0,
    behavioral := {} }

/-- `get_or_create_device`: with a truthy MAC it first calls
`get_device_by_mac`, which raises out of `_row_to_device` whenever a row
with that MAC exists (see `pyRowGetError`); otherwise it builds a new
device and upserts it. A MAC-less call never looks anything up. -/
def getOrCreateDevice (resolver : String → Option String)
    (db : List DeviceRow) (ip : String) (mac : Option String) (fid : String)
    (now : ℕ) : Except String (DeviceRec × List DeviceRow) :=
  let macTruthy := match mac with
    | some m => decide (m ≠ "")
    | none => false
  if macTruthy then
    match db.find? (fun r => decide (r.mac = mac.getD "")) with
    | some _ => Except.error pyRowGetError
    | none =>
        let d := mkNewDevice resolver ip mac fid now
        Except.ok (d, upsertDevice db d)
  else
    let d := mkNewDevice resolver ip mac fid now
    Except.ok (d, upsertDevice db d)

/-- `find?` skips a prefix on which it finds nothing. -/
theorem find?_append_of_none {α : Type} (p : α → Bool) (l1 l2 : List α)
    (h : l1.find? p = none) : (l1 ++ l2).find? p = l2.find? p := by
  induction l1 with
  | nil => simp
  | cons a l ih =>
      cases hpa : p a with
      | true => simp [List.find?, hpa] at h
      | false =>
          simp only [List.find?, hpa] at h
          simpa [List.find?, hpa] using ih h

/-- C10: every write to the devices table goes through `upsert_device`
against `UNIQUE(mac)`, preserving at-most-one-row-per-MAC; a device created
without a MAC is stored with the sentinel MAC `"unknown"` (and its creation
path always runs, no lookup); hence a second MAC-less creation replaces the
first one's row — the first id is gone and the `"unknown"` row is the
second device's. -/
theorem unknown_mac_device_replacement
    (db : List DeviceRow) (d : DeviceRec) (res : String → Option String)
    (ip1 ip2 id1 id2 : String) (t1 t2 : ℕ)
    (hmac : db.Pairwise (fun a b => a.mac ≠ b.mac))
    (hid : id1 ≠ id2)
    (hfresh : ∀ r ∈ db, r.id ≠ id1) :
    (upsertDevice db d).Pairwise (fun a b => a.mac ≠ b.mac) ∧
    (mkNewDevice res ip1 none id1 t1).mac = "unknown" ∧
    getOrCreateDevice res db ip1 none id1 t1 =
      Except.ok (mkNewDevice res ip1 none id1 t1,
        upsertDevice db (mkNewDevice res ip1 none id1 t1)) ∧
    (upsertDevice (upsertDevice db (mkNewDevice res ip1 none id1 t1))
        (mkNewDevice res ip2 none id2 t2)).find?
      (fun r => decide (r.id = id1)) = none ∧
    (upsertDevice (upsertDevice db (mkNewDevice res ip1 none id1 t1))
        (mkNewDevice res ip2 none id2 t2)).find?
      (fun r => decide (r.mac = "unknown")) =
      some (deviceToRow (mkNewDevice res ip2 none id2 t2)) := by
  have hm1 : (deviceToRow (mkNewDevice res ip1 none id1 t1)).mac =
      "unknown" := rfl
  have hm2 : (deviceToRow (mkNewDevice res ip2 none id2 t2)).mac =
      "unknown" := rfl
  have hi1 : (deviceToRow (mkNewDevice res ip1 none id1 t1)).id = id1 := rfl
  have hi2 : (deviceToRow (mkNewDevice res ip2 none id2 t2)).id = id2 := rfl
  refine ⟨?_, rfl, rfl, ?_, ?_⟩
  · rw [upsertDevice]
    rw [List.pairwise_append]
    refine ⟨List.Pairwise.filter _ hmac, by simp, ?_⟩
    intro a ha b hb
    have hb' : b = deviceToRow d := by simpa using hb
    have := (List.mem_filter.mp ha).2
    simp only [Bool.and_eq_true, decide_eq_true_eq] at this
    rw [hb']
    exact this.2
  · rw [List.find?_eq_none]
    intro x hx
    simp only [upsertDevice, List.filter_append, List.mem_append] at hx
    simp only [decide_eq_true_eq]
    rcases hx with (hx | hx)
    · rcases hx with (hx | hx)
      · have hxdb : x ∈ db :=
          List.mem_of_mem_filter (List.mem_filter.mp hx).1
        exact hfresh x hxdb
      · have hp := (List.mem_filter.mp hx).2
        have hx1 : x = deviceToRow (mkNewDevice res ip1 none id1 t1) := by
          have := (List.mem_filter.mp hx).1
          simpa using this
        rw [hx1] at hp
        simp [hm1, hm2] at hp
    · have : x = deviceToRow (mkNewDevice res ip2 none id2 t2) := by
        simpa using hx
      rw [this, hi2]
      exact hid.symm
  · rw [upsertDevice]
    rw [find?_append_of_none]
    · simp [hm2]
    · rw [List.find?_eq_none]
      intro x hx
      have hp := (List.mem_filter.mp hx).2
      simp only [Bool.and_eq_true, decide_eq_true_eq] at hp
      simp only [decide_eq_true_eq]
      rw [hm2] at hp
      exact hp.2

/-- Witness for the MAC-uniqueness and replacement theorem at concrete
inputs: empty table, two MAC-less devices with fresh distinct ids. -/
theorem unknown_mac_device_replacement_witness :
    (upsertDevice [] sampleDevice).Pairwise (fun a b => a.mac ≠ b.mac) ∧
    (mkNewDevice (fun _ => none) "10.0.0.5" none "a" 0).mac = "unknown" ∧
    getOrCreateDevice (fun _ => none) [] "10.0.0.5" none "a" 0 =
      Except.ok (mkNewDevice (fun _ => none) "10.0.0.5" none "a" 0,
        upsertDevice [] (mkNewDevice (fun _ => none) "10.0.0.5" none "a" 0)) ∧
    (upsertDevice
        (upsertDevice [] (mkNewDevice (fun _ => none) "10.0.0.5" none "a" 0))
        (mkNewDevice (fun _ => none) "10.0.0.6" none "b" 1)).find?
      (fun r => decide (r.id = "a")) = none ∧
    (upsertDevice
        (upsertDevice [] (mkNewDevice (fun _ => none) "10.0.0.5" none "a" 0))
        (mkNewDevice (fun _ => none) "10.0.0.6" none "b" 1)).find?
      (fun r => decide (r.mac = "unknown")) =
      some (deviceToRow (mkNewDevice (fun _ => none) "10.0.0.6" none "b" 1)) :=
  unknown_mac_device_replacement [] sampleDevice (fun _ => none)
    "10.0.0.5" "10.0.0.6" "a" "b" 0 1 (by simp) (by decide) (by simp)

/-! ### C9: per-flow tracking maps and finalization cleanup

`PacketCaptureService` keeps four side tables. The first three are keyed by
the flow key; `_retransmissions` is keyed by `f"{flow_key}:{tcp.seq}"`.
`_finalize_flow` (lines 1329-1335) deletes the flow key from the first
three and touches `_retransmissions` not at all. Python dicts are modelled
as insertion-ordered association lists. -/

/-- Dict lookup. -/
def alistGet {α : Type} (k : String) (l : List (String × α)) : Option α :=
  (l.find? (fun p => decide (p.1 = k))).map Prod.snd

/-- Dict assignment `d[k] = v`: overwrite in place, else append. -/
def alistSet {α : Type} (k : String) (v : α) (l : List (String × α)) :
    List (String × α) :=
  if l.any (fun p => decide (p.1 = k)) then
    l.map (fun p => if p.1 = k then (k, v) else p)
  else l ++ [(k, v)]

/-- Dict deletion `del d[k]` (a no-op when the key is absent, matching the
guarded `if key in d: del d[k]` in the source). -/
def alistErase {α : Type} (k : String) (l : List (String × α)) :
    List (String × α) :=
  l.filter (fun p => decide (p.1 ≠ k))

/-- The four tracking dicts of the engine. -/
structure TrackState where
  rttTracking : List (String × List ℚ)
  packetTimestamps : List (String × List ℚ)
  connectionStates : List (String × String)
  retransmissions : List (String × ℕ)

/-- `f"{flow_key}:{tcp.seq}"`. -/
def seqKey (flowKey : String) (seq : ℕ) : String :=
  flowKey ++ ":" ++ toString seq

/-- `_detect_retransmission`: for a TCP packet, a sequence key already in
the map means a retransmission (count incremented); a fresh key is recorded
with count 1. Non-TCP packets change nothing. -/
def detectRetransmission (isTcp : Bool) (st : TrackState) (flowKey : String)
    (seq : ℕ) : Bool × TrackState :=
  if isTcp then
    let k := seqKey flowKey seq
    match alistGet k st.retransmissions with
    | some c =>
        (true, { st with retransmissions := alistSet k (c + 1) st.retransmissions })
    | none =>
        (false, { st with retransmissions := alistSet k 1 st.retransmissions })
  else (false, st)

/-- The tracking cleanup of `_finalize_flow`: the finalized flow's key is
deleted from the RTT window, the jitter timestamps and the connection
states; the per-sequence retransmission entries stay. -/
def finalizeCleanup (st : TrackState) (flowKey : String) : TrackState :=
  { st with rttTracking := alistErase flowKey st.rttTracking,
            packetTimestamps := alistErase flowKey st.packetTimestamps,
            connectionStates := alistErase flowKey st.connectionStates }

/-- Looking up an erased key finds nothing. -/
theorem alistGet_alistErase {α : Type} (k : String)
    (l : List (String × α)) : alistGet k (alistErase k l) = none := by
  rw [alistGet, alistErase]
  have : (l.filter (fun p => decide (p.1 ≠ k))).find?
      (fun p => decide (p.1 = k)) = none := by
    rw [List.find?_eq_none]
    intro x hx
    have := (List.mem_filter.mp hx).2
    simp only [decide_eq_true_eq] at this ⊢
    exact this
  rw [this]
  rfl

/-- Looking up a just-assigned key finds the assigned value. -/
theorem alistGet_alistSet {α : Type} (k : String) (v : α)
    (l : List (String × α)) : alistGet k (alistSet k v l) = some v := by
  rw [alistSet]
  by_cases hany : l.any (fun p => decide (p.1 = k)) = true
  · rw [if_pos hany]
    rw [List.any_eq_true] at hany
    obtain ⟨p0, hp0mem, hp0⟩ := hany
    simp only [decide_eq_true_eq] at hp0
    rw [alistGet]
    induction l with
    | nil => simp at hp0mem
    | cons q rest ih =>
        by_cases hq : q.1 = k
        · simp [List.find?, hq]
        · rcases List.mem_cons.mp hp0mem with h0 | h0
          · exact absurd (h0 ▸ hp0) hq
          · simpa [List.find?, hq] using ih h0
  · rw [if_neg hany]
    rw [alistGet, find?_append_of_none]
    · simp [List.find?]
    · rw [List.find?_eq_none]
      intro x hx
      rw [List.any_eq_true] at hany
      push_neg at hany
      simpa using hany x hx

/-- C9: finalizing a flow leaves every per-sequence retransmission entry in
place while removing that flow key's RTT window, jitter timestamps and
connection state; consequently, after an earlier flow on the same key has
seen a TCP sequence number, a later flow reusing the key has its first
packet with that sequence number counted as a retransmission. -/
theorem finalize_preserves_retransmission_entries (st : TrackState)
    (k : String) (seq : ℕ) :
    (finalizeCleanup st k).retransmissions = st.retransmissions ∧
    alistGet k (finalizeCleanup st k).rttTracking = none ∧
    alistGet k (finalizeCleanup st k).packetTimestamps = none ∧
    alistGet k (finalizeCleanup st k).connectionStates = none ∧
    (detectRetransmission true
      (finalizeCleanup (detectRetransmission true st k seq).2 k) k seq).1 =
      true := by
  refine ⟨rfl, alistGet_alistErase k _, alistGet_alistErase k _,
    alistGet_alistErase k _, ?_⟩
  rcases h : alistGet (seqKey k seq) st.retransmissions with _ | c
  · simp [detectRetransmission, h, finalizeCleanup, alistGet_alistSet]
  · simp [detectRetransmission, h, finalizeCleanup, alistGet_alistSet]

/-! ### C6: `StorageService._execute_with_retry`

The loop runs `_max_retries = 3` attempts. A raised
`OperationalError`/`DatabaseError` whose lowercased text contains one of
`closed`, `lost`, `unable to open`, `database is locked` is treated as
connection-related: the connection is dropped and, unless this was the last
attempt, the loop sleeps `_retry_delay * 2 ** attempt` seconds and retries;
on the last attempt it re-raises. Any other error re-raises at once. -/

/-- What one execution attempt does. -/
inductive ExecOutcome where
  | ok : ExecOutcome
  | dbErr (msg : String) : ExecOutcome
  | otherErr (msg : String) : ExecOutcome
deriving DecidableEq

/-- The keyword list of `_execute_with_retry` (line 99-101). -/
def RETRYABLE_KEYWORDS : List String :=
  ["closed", "lost", "unable to open", "database is locked"]

/-- `any(keyword in str(e).lower() for keyword in [...])`. -/
def isRetryableMsg (msg : String) : Bool :=
  RETRYABLE_KEYWORDS.any (fun k => strContains (strLower msg) k)

/-- `self._max_retries`. -/
def MAX_RETRIES : ℕ := 3

/-- `self._retry_delay`, in seconds. -/
def RETRY_DELAY : ℚ := 1

/-- The retry loop from a given attempt number, with
`fuel = _max_retries - attempt` remaining attempts (`fuel = 0` is never
reached from `execRetry`): returns the result and the list of back-off
sleeps performed. `outcomes n` is what the n-th execution attempt does. -/
def execRetryAux (outcomes : ℕ → ExecOutcome) (attempt : ℕ) :
    ℕ → Except String Unit × List ℚ
  | 0 => (Except.error "", [])
  | fuel + 1 =>
      match outcomes attempt with
      | ExecOutcome.ok => (Except.ok (), [])
      | ExecOutcome.dbErr m =>
          if isRetryableMsg m then
            if fuel = 0 then (Except.error m, [])
            else
              let next := execRetryAux outcomes (attempt + 1) fuel
              (next.1, RETRY_DELAY * 2 ^ attempt :: next.2)
          else (Except.error m, [])
      | ExecOutcome.otherErr m => (Except.error m, [])

/-- `_execute_with_retry`. -/
def execRetry (outcomes : ℕ → ExecOutcome) : Except String Unit × List ℚ :=
  execRetryAux outcomes 0 MAX_RETRIES

/-- C6 counterexample: an error reading `database is busy` is not retried
at all — `busy` is not among the code's keywords — and even a permanently
locked database is retried only twice, sleeping 1 s and 2 s; no third retry
and no 4 s back-off exist. Both refute the claim as stated. -/
theorem retry_busy_counterexample :
    isRetryableMsg "database is busy" = false ∧
    execRetry (fun _ => ExecOutcome.dbErr "database is busy") =
      (Except.error "database is busy", []) ∧
    execRetry (fun _ => ExecOutcome.dbErr "database is locked") =
      (Except.error "database is locked", [1, 2]) ∧
    ([1, 2] : List ℚ) ≠ [1, 2, 4] := by
  have h0 : (RETRY_DELAY * 2 ^ (0 : ℕ) : ℚ) = 1 := by
    norm_num [RETRY_DELAY]
  have h1 : (RETRY_DELAY * 2 ^ (1 : ℕ) : ℚ) = 2 := by
    norm_num [RETRY_DELAY]
  refine ⟨by decide, rfl, ?_, by norm_num⟩
  calc execRetry (fun _ => ExecOutcome.dbErr "database is locked")
      = (Except.error "database is locked",
          [RETRY_DELAY * 2 ^ (0 : ℕ), RETRY_DELAY * 2 ^ (1 : ℕ)]) := rfl
    _ = (Except.error "database is locked", [1, 2]) := by rw [h0, h1]

/-- C6 amended: a write failing with a database error whose lowercased
message contains `closed`, `lost`, `unable to open` or `database is locked`
is re-attempted up to 3 attempts in total (2 retries) with back-off sleeps
of 1 s then 2 s; if it keeps failing the error surfaces after the third
attempt. A database error without such a keyword, and any non-database
error, surfaces immediately with no retry. A retryable failure followed by
a success returns after one 1 s sleep. -/
theorem retry_transient_write_errors (m : String) :
    execRetry (fun _ => ExecOutcome.dbErr m) =
      (Except.error m,
        if isRetryableMsg m then
          [RETRY_DELAY * 2 ^ (0 : ℕ), RETRY_DELAY * 2 ^ (1 : ℕ)]
        else []) ∧
    RETRY_DELAY * 2 ^ (0 : ℕ) = 1 ∧ RETRY_DELAY * 2 ^ (1 : ℕ) = 2 ∧
    execRetry (fun _ => ExecOutcome.otherErr m) = (Except.error m, []) ∧
    execRetry (fun n => if n = 0 then ExecOutcome.dbErr m else ExecOutcome.ok) =
      (if isRetryableMsg m then (Except.ok (), [RETRY_DELAY * 2 ^ (0 : ℕ)])
       else (Except.error m, [])) ∧
    (isRetryableMsg m = true ↔
      ∃ k ∈ RETRYABLE_KEYWORDS, k.data <:+: (strLower m).data) := by
  refine ⟨?_, by norm_num [RETRY_DELAY], by norm_num [RETRY_DELAY], rfl,
    ?_, ?_⟩
  · cases hm : isRetryableMsg m with
    | true =>
        simp only [if_pos]
        simp [execRetry, MAX_RETRIES, execRetryAux, hm]
    | false =>
        simp only [Bool.false_eq_true, if_neg]
        simp [execRetry, MAX_RETRIES, execRetryAux, hm]
  · cases hm : isRetryableMsg m with
    | true => simp [execRetry, MAX_RETRIES, execRetryAux, hm]
    | false => simp [execRetry, MAX_RETRIES, execRetryAux, hm]
  · simp [isRetryableMsg, List.any_eq_true, strContains_iff_infix]

/-! ### C4: the active flow table and its cap

`_process_packet` (lines 826-944) looks a packet's key and reverse key up
in `_active_flows` under the lock, updates the hit or inserts a fresh entry
— with no size check. The constant `_max_active_flows = 10000` is read only
by `_cleanup_old_flows`, and `start()` schedules exactly four tasks
(`_capture_loop`, `_periodic_cleanup`, `_batch_write_loop`,
`_process_packet_queue`); nothing ever calls `_cleanup_old_flows`. The
30-second `_periodic_cleanup` only finalizes entries idle longer than 60 s.
Table entries are reduced to `(key, last_seen)`, the only parts these
operations consult; keys are kept abstract. -/

/-- `PacketCaptureService._max_active_flows`. -/
def MAX_ACTIVE_FLOWS : ℕ := 10000

/-- The flow-table effect of `_process_packet` for one packet: update
`last_seen` of the entry found under the key or the reverse key, else
append a fresh entry under the key. -/
def flowTableStep {κ : Type} [DecidableEq κ] (table : List (κ × ℕ))
    (key rkey : κ) (now : ℕ) : List (κ × ℕ) :=
  if table.any (fun p => decide (p.1 = key)) then
    table.map (fun p => if p.1 = key then (p.1, now) else p)
  else if table.any (fun p => decide (p.1 = rkey)) then
    table.map (fun p => if p.1 = rkey then (p.1, now) else p)
  else table ++ [(key, now)]

/-- `_periodic_cleanup` (every 30 s): finalize — and thereby delete — every
entry idle for more than 60 000 ms. -/
def sweepIdle {κ : Type} (now : ℕ) (table : List (κ × ℕ)) : List (κ × ℕ) :=
  table.filter (fun p => decide (now - p.2 ≤ 60000))

/-- `_cleanup_old_flows` — dead code, never scheduled or called: it would
finalize, in insertion order (not sorted by `last_seen`), at most
`_max_active_flows // 5` entries among those idle for more than 300 000 ms. -/
def cleanupOldFlows {κ : Type} [DecidableEq κ] (now : ℕ)
    (table : List (κ × ℕ)) : List (κ × ℕ) :=
  let toRemove :=
    ((table.filter (fun p => decide (300000 < now - p.2))).map Prod.fst).take
      (MAX_ACTIVE_FLOWS / 5)
  table.filter (fun p => decide (p.1 ∉ toRemove))

/-- The background tasks `start()` creates (lines 173-176). -/
def engineBackgroundTasks : List String :=
  ["_capture_loop", "_periodic_cleanup", "_batch_write_loop",
   "_process_packet_queue"]

/-- `n` packets with pairwise distinct, non-reversed keys (evens as keys,
odds as reverse keys), all arriving at time `t`, fed into an empty table. -/
def floodTable (n : ℕ) (t : ℕ) : List (ℕ × ℕ) :=
  (List.range n).foldl (fun tab i => flowTableStep tab (2 * i) (2 * i + 1) t) []

/-- The flood only ever inserts: the table keys are exactly the even
numbers below `2 n`. -/
theorem floodTable_keys (t : ℕ) :
    ∀ n, (floodTable n t).map Prod.fst = (List.range n).map (fun i => 2 * i)
  | 0 => rfl
  | n + 1 => by
      have IH := floodTable_keys t n
      have hstep : floodTable (n + 1) t =
          flowTableStep (floodTable n t) (2 * n) (2 * n + 1) t := by
        rw [floodTable, List.range_succ, List.foldl_append]
        rfl
      have hkey : (floodTable n t).any
          (fun p => decide (p.1 = 2 * n)) = false := by
        rw [List.any_eq_false]
        intro p hp
        have hp1 : p.1 ∈ (List.range n).map (fun i => 2 * i) := by
          rw [← IH]
          exact List.mem_map_of_mem Prod.fst hp
        simp only [List.mem_map, List.mem_range] at hp1
        obtain ⟨i, hi, hpi⟩ := hp1
        simp only [decide_eq_true_eq]
        omega
      have hrkey : (floodTable n t).any
          (fun p => decide (p.1 = 2 * n + 1)) = false := by
        rw [List.any_eq_false]
        intro p hp
        have hp1 : p.1 ∈ (List.range n).map (fun i => 2 * i) := by
          rw [← IH]
          exact List.mem_map_of_mem Prod.fst hp
        simp only [List.mem_map, List.mem_range] at hp1
        obtain ⟨i, hi, hpi⟩ := hp1
        simp only [decide_eq_true_eq]
        omega
      rw [hstep, flowTableStep, hkey, hrkey]
      simp only [Bool.false_eq_true, if_false, List.map_append, IH,
        List.range_succ, List.map_append]
      rfl

/-- C4: the claim is a bug in the code. A burst of 10 001 packets with
distinct 5-tuples drives the active flow table to 10 001 entries — above
the configured `_max_active_flows` cap of 10 000 — and the only scheduled
cleanup (the 60 s idle sweeper) removes none of them while they are fresh;
`_cleanup_old_flows`, the one routine that reads the cap, is not among the
tasks `start()` launches. -/
theorem active_flow_table_unbounded :
    (floodTable 10001 0).length = 10001 ∧
    MAX_ACTIVE_FLOWS < (floodTable 10001 0).length ∧
    sweepIdle 0 (floodTable 10001 0) = floodTable 10001 0 ∧
    "_cleanup_old_flows" ∉ engineBackgroundTasks := by
  have hlen : (floodTable 10001 0).length = 10001 := by
    have := floodTable_keys 0 10001
    have hlen1 : ((floodTable 10001 0).map Prod.fst).length =
        ((List.range 10001).map (fun i => 2 * i)).length := by rw [this]
    simpa using hlen1
  refine ⟨hlen, by rw [hlen]; norm_num [MAX_ACTIVE_FLOWS], ?_, by decide⟩
  rw [sweepIdle, List.filter_eq_self]
  intro p _
  simp

end NetTraffic
